import Mathlib

/-!
Verification development for the tdlib client templates: the generic call
mechanism, the dispatch loop, and the authorization state machine, embedded
shallowly from `src/template/rust-tdlib/client/client.rs`,
`src/template/telegram-tdlib/client/client.rs` and the two
`types/td_type_trait.rs` templates.
-/

/-- Error type of the client (`RTDError` in `errors.rs`): the constructors
used by the code under `src/` (`BadRequest`, `Internal`, `TdlibError`).
The spec names `RemoteError` what the code calls `TdlibError`, and
`ProtocolError` what the code reports as `Internal`. -/
inductive RTDError
  | BadRequest (message : String)
  | Internal (message : String)
  | TdlibError (message : String)
  deriving DecidableEq, Repr

/-- Lifecycle states of one client (`ClientState` in
`rust-tdlib/client/client.rs`, lines 52-60): `Opened`, `Closed`,
`Error(message)`. -/
inductive ClientState
  | Opened
  | Closed
  | Error (message : String)
  deriving DecidableEq, Repr

/-- Inbound decoded frames (`TdType`): each variant carries the optional
correlation token `@extra` read through the generated `extra()` accessor.
`blood` stands for the expected response discriminant of one generated call
(the template's `{{token.blood}}`, instantiated with `blood != "Error"`),
`errorTy` for the generic `error` shape with its `message` field,
`updateAuthorizationState` for the authorization-state update, and `other`
for any remaining discriminant. -/
inductive TdType
  | updateAuthorizationState (extra : Option String) (payload : Nat)
  | errorTy (extra : Option String) (message : String)
  | blood (extra : Option String) (payload : Nat)
  | other (extra : Option String) (payload : Nat)
  deriving DecidableEq, Repr

/-- The `extra()` accessor on a decoded frame. -/
def TdType.extra : TdType → Option String
  | .updateAuthorizationState e _ => e
  | .errorTy e _ => e
  | .blood e _ => e
  | .other e _ => e

/-- Modelled from the spec: `Correlator.subscribe(token)` of the `OBSERVER`
(`observer.rs` is not under `src/`): registers a PendingSlot for the token.
The registry is modelled as the list of tokens with a registered slot. -/
def observerSubscribe (pending : List String) (token : String) : List String :=
  token :: pending

/-- Modelled from the spec: `Correlator.unsubscribe(token)` of the `OBSERVER`
(`observer.rs` is not under `src/`): removes a registration; a no-op on an
already-removed or absent token. -/
def observerUnsubscribe (pending : List String) (token : String) : List String :=
  pending.erase token

/-- Modelled from the spec: `Correlator.notify(frame)` of the `OBSERVER`
(`observer.rs` is not under `src/`): if the frame's token matches a
registered slot the frame is consumed and `none` is returned; otherwise the
frame is returned unchanged; frames without a token always pass through. -/
def observerNotify (pending : List String) (t : TdType) : Option TdType :=
  match t.extra with
  | none => some t
  | some token => if pending.contains token then none else some t

/-- One outgoing request, as built and sent by `handle_auth_state`
(`telegram-tdlib/client/client.rs`, lines 188-213). -/
inductive OutRequest
  | checkAuthenticationCode (code : String)
  | checkDatabaseEncryptionKey (encryption_key : String)
  | checkAuthenticationPassword (password : String)
  | setAuthenticationPhoneNumber (phone_number : String)
  | setTdlibParameters (parameters : Nat)
  deriving DecidableEq, Repr

/-- A strongly-typed request passed to a generated call method: its payload
and the optional correlation token returned by its `extra()` accessor. -/
structure Request where
  extra : Option String
  payload : Nat
  deriving DecidableEq, Repr

/-- Client-side state touched by one generated call: the Correlator registry
and the list of frames handed to `raw_api.send`. -/
structure CallState where
  subscriptions : List String
  sent : List Request
  deriving DecidableEq, Repr

/-- The generated call method of the Client Facade
(`rust-tdlib/client/client.rs`, lines 206-227), instantiated at a response
type other than `Error`. `sendResult` is the outcome of
`raw_api.send(client_id, req)`; `signalResult` is what `signal.await`
yields: `Except.error ()` when the receiver is already closed, otherwise
the frame the Correlator delivered into the slot. The steps follow the
source: read `extra()` (failing with `Internal` when absent), subscribe,
send (the `?` operator returns early on failure), await, unsubscribe, then
match the received frame on its discriminant. -/
def clientCall (st : CallState) (req : Request)
    (sendResult : Except RTDError Unit) (signalResult : Except Unit TdType) :
    Except RTDError Nat × CallState :=
  match req.extra with
  | none =>
    (.error (.Internal "invalid tdlib response type, not have `extra` field"), st)
  | some extra =>
    let st1 : CallState := { st with subscriptions := observerSubscribe st.subscriptions extra }
    match sendResult with
    | .error e => (.error e, st1)
    | .ok _ =>
      let st2 : CallState := { st1 with sent := st1.sent ++ [req] }
      let received := signalResult
      let st3 : CallState := { st2 with subscriptions := observerUnsubscribe st2.subscriptions extra }
      match received with
      | .error _ => (.error (.Internal "receiver already closed"), st3)
      | .ok v =>
        match v with
        | .blood _ payload => (.ok payload, st3)
        | .errorTy _ message => (.error (.TdlibError message), st3)
        | _ => (.error (.Internal "receive invalid response"), st3)

/-- The second phase of `wait_for_auth` (`rust-tdlib/client/client.rs`,
lines 196-202): the spawned task receives the next `ClientState` from the
auth channel; a second `Opened` is turned into an `Error`, a closed channel
into an `Error`, and any other state is passed through. The argument is the
remaining content of the auth-state channel, `[]` meaning the channel
closed. -/
def waitForAuthMonitor : List ClientState → ClientState
  | [] => .Error "auth state channel closed"
  | .Opened :: _ => .Error "received Opened state again"
  | s :: _ => s

/-- The body of `wait_for_auth` after the receiver has been obtained
(`rust-tdlib/client/client.rs`, lines 189-203): the first received state is
matched (`Closed` returns a handle resolving to `Closed`, `Error(e)` fails
with `TdlibError(e)`, `Opened` falls through), then a handle running
`waitForAuthMonitor` on the rest of the channel is returned. The `.ok`
value is the `ClientState` the returned `JoinHandle` resolves to. -/
def waitForAuthRecv : List ClientState → Except RTDError ClientState
  | [] => .ok (waitForAuthMonitor [])
  | msg :: rest =>
    match msg with
    | .Closed => .ok .Closed
    | .Error e => .error (.TdlibError e)
    | .Opened => .ok (waitForAuthMonitor rest)

/-- `Client::wait_for_auth` (`rust-tdlib/client/client.rs`, lines 182-204):
when the auth-state receiver was already taken the call fails with
`BadRequest`; otherwise the channel content is processed by
`waitForAuthRecv`. -/
def wait_for_auth (receiver : Option (List ClientState)) : Except RTDError ClientState :=
  match receiver with
  | none => .error (.BadRequest "client already initialized")
  | some msgs => waitForAuthRecv msgs

/-- The variants of `AuthorizationState` matched by `handle_auth_state`
(`telegram-tdlib/client/client.rs`, lines 179-215). The wait states whose
payload is handed to the handler carry an opaque payload. -/
inductive AuthorizationState
  | _Default
  | Closed
  | Closing
  | LoggingOut
  | Ready
  | WaitCode (wait_code : Nat)
  | WaitEncryptionKey (wait_encryption_key : Nat)
  | WaitOtherDeviceConfirmation
  | WaitPassword (wait_password : Nat)
  | WaitPhoneNumber (wait_phone_number : Nat)
  | WaitRegistration
  | WaitTdlibParameters
  | GetAuthorizationState
  deriving DecidableEq, Repr

/-- The pluggable `AuthStateHandler` trait
(`telegram-tdlib/client/client.rs`, lines 23-30): one method per secret
kind, each taking the triggering wait-state payload and returning a
string. -/
structure AuthStateHandler where
  handle_wait_code : Nat → String
  handle_encryption_key : Nat → String
  handle_wait_password : Nat → String
  handle_wait_phone_number : Nat → String
  handle_wait_registration : Nat → String

/-- The observable effects of one `handle_auth_state` call that returned
normally: the requests sent through the `Api`, the number of `()` signals
sent on the ready channel `sx`, and the handler methods invoked, in
order. -/
structure AuthStepEffects where
  sentRequests : List OutRequest
  readySignals : Nat
  handlerCalls : List String
  deriving DecidableEq, Repr

/-- Outcome of one `handle_auth_state` call: a normal `RTDResult::Ok` with
its effects, or a panic (the `unreachable!()` and `todo!()` arms). -/
inductive AuthStepOutcome
  | ok (effects : AuthStepEffects)
  | panicked (message : String)
  deriving DecidableEq, Repr

/-- `handle_auth_state` (`telegram-tdlib/client/client.rs`, lines 178-216):
one transition of the authorization state machine, matched arm by arm
against the source. `parameters` is the configured `TdlibParameters`
(modelled opaquely). The `_Default` arm is `unreachable!()`; the `Closed`,
`Closing`, `LoggingOut`, `WaitOtherDeviceConfirmation`, `WaitRegistration`
and `GetAuthorizationState` arms are `todo!()`, which panics with
"not yet implemented". -/
def handle_auth_state (h : AuthStateHandler) (state : AuthorizationState)
    (parameters : Nat) : AuthStepOutcome :=
  match state with
  | ._Default => .panicked "internal error: entered unreachable code"
  | .Closed => .panicked "not yet implemented"
  | .Closing => .panicked "not yet implemented"
  | .LoggingOut => .panicked "not yet implemented"
  | .Ready => .ok ⟨[], 1, []⟩
  | .WaitCode wait_code =>
    let code := h.handle_wait_code wait_code
    .ok ⟨[.checkAuthenticationCode code], 0, ["handle_wait_code"]⟩
  | .WaitEncryptionKey wait_encryption_key =>
    let key := h.handle_encryption_key wait_encryption_key
    .ok ⟨[.checkDatabaseEncryptionKey key], 0, ["handle_encryption_key"]⟩
  | .WaitOtherDeviceConfirmation => .panicked "not yet implemented"
  | .WaitPassword wait_password =>
    let password := h.handle_wait_password wait_password
    .ok ⟨[.checkAuthenticationPassword password], 0, ["handle_wait_password"]⟩
  | .WaitPhoneNumber wait_phone_number =>
    let phone_number := h.handle_wait_phone_number wait_phone_number
    .ok ⟨[.setAuthenticationPhoneNumber phone_number], 0, ["handle_wait_phone_number"]⟩
  | .WaitRegistration => .panicked "not yet implemented"
  | .WaitTdlibParameters => .ok ⟨[.setTdlibParameters parameters], 0, []⟩
  | .GetAuthorizationState => .panicked "not yet implemented"

/-- Result of running the auth task loop
(`telegram-tdlib/client/client.rs`, lines 161-171) over a queue of
authorization states: the accumulated effects, and the panic message if a
`handle_auth_state` call panicked (the loop `unwrap`s each call, so a
panic aborts it and discards the remaining queue). -/
structure AuthRunResult where
  sentRequests : List OutRequest
  readySignals : Nat
  handlerCalls : List String
  panicMessage : Option String
  deriving DecidableEq, Repr

/-- The auth task loop: `while let Some(auth_state) = auth_rx.recv().await`
runs `handle_auth_state` on each queued state in arrival order, strictly
serialized. -/
def runAuthSequence (h : AuthStateHandler) (parameters : Nat) :
    List AuthorizationState → AuthRunResult
  | [] => ⟨[], 0, [], none⟩
  | s :: rest =>
    match handle_auth_state h s parameters with
    | .panicked m => ⟨[], 0, [], some m⟩
    | .ok eff =>
      let r := runAuthSequence h parameters rest
      ⟨eff.sentRequests ++ r.sentRequests, eff.readySignals + r.readySignals,
        eff.handlerCalls ++ r.handlerCalls, r.panicMessage⟩

/-- Destination of one successfully decoded frame in the dispatch loop
(`telegram-tdlib/client/client.rs`, lines 137-154): consumed by the
Correlator, sent to the auth serial queue, sent to the updates sender, or
dropped because no updates sender is configured (`None => {}`). -/
inductive Route
  | consumedByCorrelator
  | toAuthQueue
  | toUpdateSink
  | droppedNoSink
  deriving DecidableEq, Repr

/-- Routing of one decoded frame by the dispatch loop
(`telegram-tdlib/client/client.rs`, lines 137-154): the frame is first
offered to `OBSERVER.notify`; an unmatched `UpdateAuthorizationState` goes
to the auth queue `auth_sx`; any other unmatched frame goes to
`updates_sender` when one is set and is dropped otherwise.
`hasUpdatesSender` models whether `updates_sender` is `Some`. -/
def routeDecoded (pending : List String) (hasUpdatesSender : Bool) (t : TdType) : Route :=
  match observerNotify pending t with
  | none => .consumedByCorrelator
  | some t2 =>
    match t2 with
    | .updateAuthorizationState _ _ => .toAuthQueue
    | _ => if hasUpdatesSender then .toUpdateSink else .droppedNoSink

/-- Outcome of one iteration of the dispatch loop body: continue looping
(having routed a frame, or nothing on a poll timeout), or abort the loop by
panicking (`Err(e) => {panic!("{}", e)}`). -/
inductive LoopStep
  | continueLoop (routed : Option Route)
  | fatalPanic (message : String)
  deriving DecidableEq, Repr

/-- One iteration of the dispatch loop body
(`telegram-tdlib/client/client.rs`, lines 133-157): `receive(2.0)` yields
`recvResult`; `none` (timeout) loops again; on a frame, `from_json` is
applied (modelled by the `decode` parameter, as `from_json` lives outside
`src/`), a decode error panics the loop, and a decoded frame is routed. -/
def dispatchIteration (pending : List String) (hasUpdatesSender : Bool)
    (recvResult : Option String) (decode : String → Except String TdType) : LoopStep :=
  match recvResult with
  | none => .continueLoop none
  | some json =>
    match decode json with
    | .error e => .fatalPanic e
    | .ok t => .continueLoop (some (routeDecoded pending hasUpdatesSender t))

/-- Number of `receive()` polls issued by the dispatch loop
(`telegram-tdlib/client/client.rs`, line 133): the loop condition
`while !*stop_flag.lock().unwrap()` reads the stop flag before every poll;
the argument lists the successive values read, and each `false` read is
followed by exactly one poll. -/
def dispatchLoopPolls : List Bool → Nat
  | [] => 0
  | stopRead :: rest => if stopRead then 0 else 1 + dispatchLoopPolls rest

/-- The `RObject` accessors a generated sub-token type provides
(`rust-tdlib/types/td_type_trait.rs`): `extra()` and `client_id()`. -/
class RObject (α : Type) where
  extra : α → Option String
  client_id : α → Option Int

/-- A generated tagged-union type from `types/td_type_trait.rs`
(both templates, rust-tdlib lines 6-14 and telegram-tdlib lines 6-13):
the hidden `_Default(())` variant plus one constructor per sub-token,
abstracted here over the sub-token payload type `α`. -/
inductive TaggedUnion (α : Type)
  | _Default : Unit → TaggedUnion α
  | subToken : α → TaggedUnion α
  deriving Repr

/-- The generated `Default` impl (`rust-tdlib/types/td_type_trait.rs`,
lines 16-18): `default()` is the `_Default` variant. -/
def TaggedUnion.default (α : Type) : TaggedUnion α :=
  ._Default ()

/-- The generated `extra()` accessor on a tagged union
(`rust-tdlib/types/td_type_trait.rs`, lines 21-27): one arm per sub-token
delegating to the sub-token's accessor, then `_ => None`. -/
def TaggedUnion.extra [RObject α] : TaggedUnion α → Option String
  | .subToken t => RObject.extra t
  | _ => none

/-- The generated `client_id()` accessor on a tagged union
(`rust-tdlib/types/td_type_trait.rs`, lines 28-34): one arm per sub-token
delegating to the sub-token's accessor, then `_ => None`. -/
def TaggedUnion.client_id [RObject α] : TaggedUnion α → Option Int
  | .subToken t => RObject.client_id t
  | _ => none

/-- The generated `_is_default()` predicate
(`rust-tdlib/types/td_type_trait.rs`, line 39, and
`telegram-tdlib/types/td_type_trait.rs`, line 50): true exactly on the
`_Default` variant. -/
def TaggedUnion._is_default : TaggedUnion α → Bool
  | ._Default _ => true
  | _ => false

/-- A concrete sub-token payload instance, used to exercise the generic
tagged-union accessors on concrete values. -/
instance : RObject Nat where
  extra n := some (toString n)
  client_id n := some (Int.ofNat n)

/-- Helper: `observerNotify` never alters a frame it passes through. -/
theorem observerNotify_some_eq (pending : List String) (t t2 : TdType)
    (h : observerNotify pending t = some t2) : t2 = t := by
  unfold observerNotify at h
  split at h
  · exact (Option.some.inj h).symm
  · split at h
    · exact absurd h (by simp)
    · exact (Option.some.inj h).symm

/-- Claim C1: through the generic call mechanism, with a correlation token
attached and a matching response frame delivered into the slot: a frame of
the expected discriminant makes the call return the decoded payload; the
generic error discriminant makes it fail with `TdlibError` (the spec's
RemoteError) carrying the frame's `message`; any other discriminant makes
it fail with `Internal` (the spec's ProtocolError); and in every one of
these cases the token is no longer subscribed on the Correlator after the
response is received. -/
theorem clientCall_roundtrip (st : CallState) (req : Request) (tok : String)
    (hx : req.extra = some tok) (hs : tok ∉ st.subscriptions) :
    (∀ e p, (clientCall st req (.ok ()) (.ok (.blood e p))).1 = .ok p) ∧
    (∀ e m, (clientCall st req (.ok ()) (.ok (.errorTy e m))).1
      = .error (.TdlibError m)) ∧
    (∀ e p, (clientCall st req (.ok ()) (.ok (.other e p))).1
      = .error (.Internal "receive invalid response")) ∧
    (∀ e p, (clientCall st req (.ok ()) (.ok (.updateAuthorizationState e p))).1
      = .error (.Internal "receive invalid response")) ∧
    (∀ r, tok ∉ ((clientCall st req (.ok ()) (.ok r)).2).subscriptions) := by
  refine ⟨?_, ?_, ?_, ?_, ?_⟩
  · intro e p
    simp [clientCall, hx]
  · intro e m
    simp [clientCall, hx]
  · intro e p
    simp [clientCall, hx]
  · intro e p
    simp [clientCall, hx]
  · intro r
    cases r <;>
      simpa [clientCall, hx, observerSubscribe, observerUnsubscribe] using hs

/-- Witness for C1: a concrete round trip with token "X" returning the
decoded payload. -/
theorem clientCall_roundtrip_witness :
    (clientCall ⟨[], []⟩ ⟨some "X", 0⟩ (.ok ()) (.ok (.blood (some "X") 7))).1
      = .ok 7 :=
  (clientCall_roundtrip ⟨[], []⟩ ⟨some "X", 0⟩ "X" rfl (by simp)).1 (some "X") 7

/-- Claim C9: a request whose `extra()` accessor returns `None` makes the
generated call method fail immediately with an `Internal` error, with the
client state returned unchanged: nothing subscribed on the Correlator and
nothing sent through the Transport. -/
theorem clientCall_missing_extra (st : CallState) (req : Request)
    (sendResult : Except RTDError Unit) (signalResult : Except Unit TdType)
    (hx : req.extra = none) :
    clientCall st req sendResult signalResult
      = (.error (.Internal "invalid tdlib response type, not have `extra` field"), st) := by
  simp [clientCall, hx]

/-- Witness for C9: a concrete extra-less request fails with `Internal` and
leaves the empty state empty. -/
theorem clientCall_missing_extra_witness :
    clientCall ⟨[], []⟩ ⟨none, 5⟩ (.ok ()) (.error ())
      = (.error (.Internal "invalid tdlib response type, not have `extra` field"),
         ⟨[], []⟩) :=
  clientCall_missing_extra ⟨[], []⟩ ⟨none, 5⟩ (.ok ()) (.error ()) rfl

/-- Claim C4: a second `Opened` (Ready) state after the first makes the
handle returned by `wait_for_auth` resolve to
`ClientState::Error("received Opened state again")`, for every remainder of
the stream; in this model the handle resolves to exactly one value by
construction, so it never resolves twice. -/
theorem wait_for_auth_double_ready (rest : List ClientState) :
    wait_for_auth (some (.Opened :: .Opened :: rest))
      = .ok (.Error "received Opened state again") := rfl

/-- Counterexample to claim C6 as stated: when the handshake frame stream
ends without reaching Ready (the auth-state channel closes while still
empty), `wait_for_auth` resolves to
`ClientState::Error("auth state channel closed")`, not to `Closed`. -/
theorem wait_for_auth_stream_end_counterexample :
    wait_for_auth (some []) = .ok (.Error "auth state channel closed") ∧
    wait_for_auth (some []) ≠ .ok ClientState.Closed := by
  refine ⟨rfl, ?_⟩
  intro h
  simp [wait_for_auth, waitForAuthRecv, waitForAuthMonitor] at h

/-- Claim C6 amended: `wait_for_auth` succeeds on the first `Opened`
(Ready) transition, returning the monitoring handle for the remaining
stream; fails with `TdlibError` when the Auth State Machine reports
failure; returns a handle resolving to `Closed` when a `Closed` state is
delivered first; when the stream ends without reaching Ready the handle
resolves to `Error("auth state channel closed")`, not to `Closed`; and a
second call on the same client fails with `BadRequest`. -/
theorem wait_for_auth_resolution (e : String) (rest : List ClientState) :
    wait_for_auth (some (.Opened :: rest)) = .ok (waitForAuthMonitor rest) ∧
    wait_for_auth (some (.Error e :: rest)) = .error (.TdlibError e) ∧
    wait_for_auth (some (.Closed :: rest)) = .ok .Closed ∧
    wait_for_auth (some []) = .ok (.Error "auth state channel closed") ∧
    wait_for_auth none = .error (.BadRequest "client already initialized") :=
  ⟨rfl, rfl, rfl, rfl, rfl⟩

/-- Claim C2: each wait state triggers exactly the prescribed action —
`WaitTdlibParameters` sends `setTdlibParameters` with the configured
settings without consulting the handler, `WaitEncryptionKey` invokes the
encryption-key handler and sends `checkDatabaseEncryptionKey`,
`WaitPhoneNumber` invokes the phone-number handler and sends
`setAuthenticationPhoneNumber`, `WaitCode` invokes the code handler and
sends `checkAuthenticationCode`, `WaitPassword` invokes the password
handler and sends `checkAuthenticationPassword` — and feeding the sequence
WaitParameters, WaitEncryptionKey, WaitPhoneNumber, WaitCode, Ready
produces exactly those four outgoing requests in that order. -/
theorem handle_auth_state_actions (h : AuthStateHandler) (parameters : Nat)
    (c k pw ph : Nat) :
    handle_auth_state h .WaitTdlibParameters parameters
      = .ok ⟨[.setTdlibParameters parameters], 0, []⟩ ∧
    handle_auth_state h (.WaitEncryptionKey k) parameters
      = .ok ⟨[.checkDatabaseEncryptionKey (h.handle_encryption_key k)], 0,
          ["handle_encryption_key"]⟩ ∧
    handle_auth_state h (.WaitPhoneNumber ph) parameters
      = .ok ⟨[.setAuthenticationPhoneNumber (h.handle_wait_phone_number ph)], 0,
          ["handle_wait_phone_number"]⟩ ∧
    handle_auth_state h (.WaitCode c) parameters
      = .ok ⟨[.checkAuthenticationCode (h.handle_wait_code c)], 0,
          ["handle_wait_code"]⟩ ∧
    handle_auth_state h (.WaitPassword pw) parameters
      = .ok ⟨[.checkAuthenticationPassword (h.handle_wait_password pw)], 0,
          ["handle_wait_password"]⟩ ∧
    runAuthSequence h parameters
        [.WaitTdlibParameters, .WaitEncryptionKey k, .WaitPhoneNumber ph,
         .WaitCode c, .Ready]
      = ⟨[.setTdlibParameters parameters,
          .checkDatabaseEncryptionKey (h.handle_encryption_key k),
          .setAuthenticationPhoneNumber (h.handle_wait_phone_number ph),
          .checkAuthenticationCode (h.handle_wait_code c)], 1,
          ["handle_encryption_key", "handle_wait_phone_number",
           "handle_wait_code"], none⟩ :=
  ⟨rfl, rfl, rfl, rfl, rfl, rfl⟩

/-- Claim C7 evaluated on the code: the `Closed`, `Closing` and
`LoggingOut` arms of `handle_auth_state` are `todo!()`, so the call panics
with "not yet implemented" instead of returning normally, taking no action
and propagating no lifecycle signal. -/
theorem handle_auth_state_closed_panics (h : AuthStateHandler) (parameters : Nat) :
    handle_auth_state h .Closed parameters = .panicked "not yet implemented" ∧
    handle_auth_state h .Closing parameters = .panicked "not yet implemented" ∧
    handle_auth_state h .LoggingOut parameters = .panicked "not yet implemented" :=
  ⟨rfl, rfl, rfl⟩

/-- Counterexample to claim C3 as stated: with no updates sender configured
(`updates_sender` is `None`, its value in `Client::new`), an unmatched
frame of a non-authorization discriminant is dropped by the dispatch loop
instead of being delivered to the Update Sink. -/
theorem routeDecoded_no_sink_counterexample :
    routeDecoded [] false (.other none 0) = .droppedNoSink ∧
    routeDecoded [] false (.other none 0) ≠ .toUpdateSink := by
  refine ⟨rfl, ?_⟩
  intro h
  simp [routeDecoded, observerNotify, TdType.extra] at h

/-- Claim C3 amended: every decoded frame is first offered to the
Correlator, and a consumed frame goes nowhere else; an unmatched
authorization-state update goes to the auth serial queue; every other
unmatched frame goes to the Update Sink when an updates sender is
configured and is dropped otherwise; and a frame without a correlation
token is never consumed by the Correlator. -/
theorem routeDecoded_amended (pending : List String) (t : TdType) :
    (∀ b, observerNotify pending t = none →
      routeDecoded pending b t = .consumedByCorrelator) ∧
    (∀ b e p, t = .updateAuthorizationState e p →
      observerNotify pending t ≠ none →
      routeDecoded pending b t = .toAuthQueue) ∧
    (∀ b, (∀ e p, t ≠ .updateAuthorizationState e p) →
      observerNotify pending t ≠ none →
      routeDecoded pending b t
        = if b then .toUpdateSink else .droppedNoSink) ∧
    (t.extra = none → ∀ b,
      routeDecoded pending b t ≠ .consumedByCorrelator) := by
  refine ⟨?_, ?_, ?_, ?_⟩
  · intro b hn
    simp [routeDecoded, hn]
  · intro b e p ht hn
    obtain ⟨t2, h2⟩ := Option.ne_none_iff_exists.mp hn
    have ht2 := observerNotify_some_eq pending t t2 h2.symm
    subst ht2
    subst ht
    rw [routeDecoded, ← h2]
  · intro b hshape hn
    obtain ⟨t2, h2⟩ := Option.ne_none_iff_exists.mp hn
    have ht2 := observerNotify_some_eq pending t t2 h2.symm
    subst ht2
    rw [routeDecoded, ← h2]
    cases t2 with
    | updateAuthorizationState e p => exact absurd rfl (hshape e p)
    | errorTy e m => rfl
    | blood e p => rfl
    | other e p => rfl
  · intro hx b
    have hn : observerNotify pending t = some t := by
      simp [observerNotify, hx]
    intro hroute
    rw [routeDecoded, hn] at hroute
    cases t <;> simp_all
    all_goals (cases b <;> simp_all)

/-- Witness for C3: a frame carrying a pending token is consumed by the
Correlator. -/
theorem routeDecoded_amended_witness :
    routeDecoded ["X"] true (.blood (some "X") 0) = .consumedByCorrelator :=
  (routeDecoded_amended ["X"] (.blood (some "X") 0)).1 true (by decide)

/-- Claim C5: in one iteration of the dispatch loop, a frame that fails to
decode panics the loop (terminating it fatally, surfacing the failure to
the owner through the join handle), while every successfully decoded frame
is routed and the loop continues. -/
theorem dispatchIteration_decode (pending : List String) (b : Bool)
    (json : String) (decode : String → Except String TdType) :
    (∀ e, decode json = .error e →
      dispatchIteration pending b (some json) decode = .fatalPanic e) ∧
    (∀ t, decode json = .ok t →
      dispatchIteration pending b (some json) decode
        = .continueLoop (some (routeDecoded pending b t))) := by
  constructor
  · intro e he
    simp [dispatchIteration, he]
  · intro t ht
    simp [dispatchIteration, ht]

/-- Witness for C5: a concrete undecodable frame panics the loop with the
decode error. -/
theorem dispatchIteration_decode_witness :
    dispatchIteration [] false (some "x") (fun _ => .error "bad json")
      = .fatalPanic "bad json" :=
  (dispatchIteration_decode [] false "x" (fun _ => .error "bad json")).1
    "bad json" rfl

/-- Helper: the dispatch loop polls once per `false` stop-flag read and
stops at the first `true` read, whatever reads would follow. -/
theorem dispatchLoopPolls_leading (pre post : List Bool)
    (hpre : ∀ b ∈ pre, b = false) :
    dispatchLoopPolls (pre ++ true :: post) = pre.length := by
  induction pre with
  | nil => simp [dispatchLoopPolls]
  | cons a l ih =>
    have ha : a = false := hpre a (List.mem_cons_self a l)
    subst ha
    have hl : ∀ b ∈ l, b = false := fun b hb => hpre b (List.mem_cons_of_mem _ hb)
    simp [dispatchLoopPolls, ih hl]
    omega

/-- Claim C8: the stop flag is read before every poll, so once a `true`
read occurs after a run of `false` reads the loop has issued exactly one
`receive()` per preceding `false` read and issues no further polls: the
poll count does not depend on anything after the first `true` read. -/
theorem dispatchLoopPolls_stop (pre post : List Bool)
    (hpre : ∀ b ∈ pre, b = false) :
    dispatchLoopPolls (pre ++ true :: post) = pre.length ∧
    dispatchLoopPolls (pre ++ true :: post) = dispatchLoopPolls (pre ++ [true]) := by
  refine ⟨dispatchLoopPolls_leading pre post hpre, ?_⟩
  rw [dispatchLoopPolls_leading pre post hpre, dispatchLoopPolls_leading pre [] hpre]

/-- Witness for C8: with the stop flag read `false`, `false`, `true`, the
loop polls exactly twice, regardless of later flag values. -/
theorem dispatchLoopPolls_stop_witness :
    dispatchLoopPolls [false, false, true, false] = 2 :=
  (dispatchLoopPolls_stop [false, false] [false] (by decide)).1

/-- Claim C10: for every generated tagged-union type, the `Default` value
is the hidden `_Default` variant, on which `_is_default()` is true and both
`extra()` and `client_id()` return `None`, so a defaulted union value never
carries a correlation token. -/
theorem taggedUnion_default_properties (α : Type) [RObject α] :
    TaggedUnion.default α = TaggedUnion._Default () ∧
    (TaggedUnion.default α)._is_default = true ∧
    (TaggedUnion.default α).extra = none ∧
    (TaggedUnion.default α).client_id = none :=
  ⟨rfl, rfl, rfl, rfl⟩

/-- Witness for C10: the defaulted union over a concrete sub-token type
reports itself as the hidden default and carries no token. -/
theorem taggedUnion_default_properties_witness :
    (TaggedUnion.default Nat).extra = none ∧
    (TaggedUnion.default Nat).client_id = none :=
  ⟨(taggedUnion_default_properties Nat).2.2.1,
   (taggedUnion_default_properties Nat).2.2.2⟩
